import Mathlib

/-!
Shallow embedding of the LLM data-quality suggestion pipeline
(`app/llm_suggestions/prompts.py`, `app/llm_suggestions/llm_client.py`,
`app/services/llm_sugg_service.py`, `app/model/llm_sugg_models.py`)
and proofs about the behaviour its specification claims.

Python values appearing in sample rows are modelled by `PyVal`; the value
universe is restricted to the forms the pipeline inspects (absent/None,
strings, integers).  Machine floats in the source (`null_pct`, numeric
min/max) are modelled as rationals; the only claim touching them
(`null_pct`) concerns values where binary floating point is exact
(n / n * 100 and the stated formula itself).
-/

namespace LLMSugg

/-- A Python value occurring in a sample row.  `none` covers both an absent
key (Python `row.get` returns `None`) and an explicit `None` value, which
the source code cannot distinguish either. -/
inductive PyVal where
  | none
  | str (s : String)
  | int (n : Int)
deriving DecidableEq, Repr

/-- A sample row: Python dict from column name to value.  Keys are unique
(Python dict); lookup takes the first match. -/
abbrev SampleRow := List (String × PyVal)

/-- Python `row.get(col_name)`: `None` when the key is absent. -/
def pyGet (row : SampleRow) (k : String) : PyVal :=
  match row.find? (fun p => p.1 = k) with
  | Option.some p => p.2
  | Option.none => PyVal.none

/-- The source's missingness test `v is not None and v != ""`, negated:
a value is missing iff it is `None` or the empty string. -/
def isMissing (v : PyVal) : Bool :=
  v = PyVal.none || v = PyVal.str ""

/-- Python `str(v)` for the values of our universe. -/
def pyStr (v : PyVal) : String :=
  match v with
  | PyVal.none => "None"
  | PyVal.str s => s
  | PyVal.int n => if n < 0 then "-" ++ toString (-n).toNat else toString n.toNat

/-- Python `sub in s` (case kept): substring test, modelled as list infix. -/
def strContains (s sub : String) : Bool :=
  decide (sub.toList <:+: s.toList)

/-- ASCII lower-casing, as Python `str.lower()` on ASCII column names
(`Char.toLower` lowers exactly the ASCII uppercase range). -/
def pyLower (s : String) : String := String.mk (s.toList.map Char.toLower)

/- ----------------------------------------------------------------- -/
/- Email regex `^[a-zA-Z0-9._%+-]+@[a-zA-Z0-9.-]+\.[a-zA-Z]{2,}$`     -/
/- ----------------------------------------------------------------- -/

def isLocalChar (c : Char) : Bool :=
  c.isAlpha || c.isDigit || c = '.' || c = '_' || c = '%' || c = '+' || c = '-'

def isDomainChar (c : Char) : Bool :=
  c.isAlpha || c.isDigit || c = '.' || c = '-'

/-- Does `cs` match `[a-zA-Z0-9.-]+\.[a-zA-Z]{2,}` entirely?  With
backtracking semantics this holds iff some occurrence of `'.'` splits the
string into a non-empty domain-char prefix and an all-alpha suffix of
length at least 2. -/
def domainMatch (cs : List Char) : Bool :=
  (List.range cs.length).any (fun i =>
    cs.getD i ' ' = '.' && decide (1 ≤ i) && (cs.take i).all isDomainChar &&
      decide (i + 3 ≤ cs.length) && (cs.drop (i + 1)).all Char.isAlpha)

/-- Full match of the email pattern against the whole character list.
`[local]+` cannot contain `'@'`, so the local part is exactly the segment
before the first `'@'`. -/
def emailFullMatch (cs : List Char) : Bool :=
  match cs.findIdx? (fun c => c = '@') with
  | Option.none => false
  | Option.some i =>
      decide (1 ≤ i) && (cs.take i).all isLocalChar && domainMatch (cs.drop (i + 1))

/-- Python `re.match` of the anchored pattern: `$` also matches just before
one trailing newline, so a string matches iff it matches fully or matches
fully after removing a single trailing newline. -/
def emailMatch (s : String) : Bool :=
  let cs := s.toList
  emailFullMatch cs ||
    (cs.getLast? = Option.some '\n' && emailFullMatch cs.dropLast)

/- ----------------------------------------------------------------- -/
/- Python dict used as a counter (duplicate detection)                -/
/- ----------------------------------------------------------------- -/

/-- `value_counts[str(v)] = value_counts.get(str(v), 0) + 1`:
bump the count for key `k`, inserting at the end when new (dict insertion
order). -/
def bumpCount (m : List (String × Nat)) (k : String) : List (String × Nat) :=
  if m.any (fun p => p.1 = k) then
    m.map (fun p => if p.1 = k then (p.1, p.2 + 1) else p)
  else m ++ [(k, 1)]

/-- The `value_counts` dict after the counting loop. -/
def valueCounts (l : List String) : List (String × Nat) :=
  l.foldl bumpCount []

/- ----------------------------------------------------------------- -/
/- Python float() coercion for min/max (best effort, see below)       -/
/- ----------------------------------------------------------------- -/

/-- Parse an optionally signed decimal numeral with optional fractional
part, as accepted by Python `float` on the simple numerals the pipeline
meets (scientific notation, underscores and specials are not needed by
any claim and are treated as failures). -/
def parseDecimal (cs : List Char) : Option ℚ :=
  let (sign, rest) :=
    match cs with
    | '-' :: t => ((-1 : ℚ), t)
    | '+' :: t => ((1 : ℚ), t)
    | t => ((1 : ℚ), t)
  let intPart := rest.takeWhile Char.isDigit
  let afterInt := rest.dropWhile Char.isDigit
  let (fracPart, tail) :=
    match afterInt with
    | '.' :: t => (t.takeWhile Char.isDigit, t.dropWhile Char.isDigit)
    | t => ([], t)
  if tail = [] ∧ intPart ++ fracPart ≠ [] then
    let digitsVal (ds : List Char) : ℚ :=
      ds.foldl (fun acc c => acc * 10 + (c.toNat - '0'.toNat)) 0
    Option.some (sign * (digitsVal intPart + digitsVal fracPart / 10 ^ fracPart.length))
  else Option.none

/-- Python `float(v)` on our value universe; `Option.none` models the
ValueError/TypeError the `try` block catches. -/
def pyFloat (v : PyVal) : Option ℚ :=
  match v with
  | PyVal.int n => Option.some (n : ℚ)
  | PyVal.str s => parseDecimal ((s.trim).toList)
  | PyVal.none => Option.none

/-- `[float(v) for v in vs]` inside a `try`: all-or-nothing. -/
def pyFloatAll (vs : List PyVal) : Option (List ℚ) :=
  vs.mapM pyFloat

/- ----------------------------------------------------------------- -/
/- The analyzer `_analyze_sample_data_enhanced`                       -/
/- ----------------------------------------------------------------- -/

/-- Per-column statistics dict.  Optional Python dict keys (set only on
their code paths) are modelled as `Option` fields / `Bool` flags that are
`none` / `false` exactly when the key is absent. -/
structure ColStats where
  null_count : Nat
  null_pct : ℚ
  distinct_count : Nat
  sample_values : Option (List String)
  min? : Option ℚ
  max? : Option ℚ
  has_email_issues : Bool
  email_invalid_count : Option Nat
  email_invalid_examples : Option (List String)
  has_duplicates : Bool
  duplicate_count : Option Nat
  has_placeholder : Bool
deriving DecidableEq, Repr

def placeholderValues : List String :=
  ["test", "dummy", "n/a", "na", "null", "xxx", "none", "invalid"]

/-- Sort a list of strings as Python `sorted` does on `str` (lexicographic
on code points). -/
def pySorted (l : List String) : List String :=
  l.mergeSort (fun a b => a ≤ b)

/-- Dedup keeping the first occurrence, as iterating a Python `set` built
from a list never yields a value twice (order is then imposed by `sorted`,
so first-occurrence order is irrelevant downstream). -/
def firstDedup (l : List String) : List String :=
  l.foldl (fun acc s => if s ∈ acc then acc else acc ++ [s]) []

/-- `values = [row.get(col_name) for row in sample_rows]`. -/
def columnValues (colName : String) (rows : List SampleRow) : List PyVal :=
  rows.map (fun r => pyGet r colName)

/-- `non_null_values = [v for v in values if v is not None and v != ""]`. -/
def nonNullValues (colName : String) (rows : List SampleRow) : List PyVal :=
  (columnValues colName rows).filter (fun v => !isMissing v)

/-- The column-name test guarding the email heuristic:
`"email" in col_name.lower() or "mail" in col_name.lower()`. -/
def isEmailCol (colName : String) : Bool :=
  strContains (pyLower colName) "email" || strContains (pyLower colName) "mail"

/-- `invalid_emails` for an email-named column (empty otherwise: the guard
skips the computation). -/
def invalidEmailValues (colName : String) (rows : List SampleRow) : List PyVal :=
  if isEmailCol colName then
    (nonNullValues colName rows).filter (fun v => !emailMatch (pyStr v))
  else []

/-- The column-name test guarding duplicate detection:
`"id" in l or "_id" in l or "key" in l` on the lower-cased name. -/
def isIdCol (colName : String) : Bool :=
  strContains (pyLower colName) "id" || strContains (pyLower colName) "_id" ||
    strContains (pyLower colName) "key"

/-- `duplicates = {v: c for v, c in value_counts.items() if c > 1}` for an
id/key-named column (empty otherwise: the guard skips the computation). -/
def duplicateEntries (colName : String) (rows : List SampleRow) : List (String × Nat) :=
  if isIdCol colName then
    (valueCounts ((nonNullValues colName rows).map pyStr)).filter (fun p => 1 < p.2)
  else []

/-- The loop body of `_analyze_sample_data_enhanced` for one named column. -/
def analyzeColumn (colName : String) (rows : List SampleRow) : ColStats :=
  let sampleSize := rows.length
  let values := columnValues colName rows
  let nonNull := nonNullValues colName rows
  let nullCount := values.length - nonNull.length
  let strs := nonNull.map pyStr
  let distinctCount := if nonNull = [] then 0 else (firstDedup strs).length
  let sampleVals :=
    if distinctCount ≤ 10 ∧ nonNull ≠ [] then
      Option.some ((pySorted (firstDedup strs)).take 10)
    else Option.none
  let numeric := pyFloatAll nonNull
  let minMax :=
    match numeric with
    | Option.some (q :: qs) =>
        (Option.some (qs.foldl min q), Option.some (qs.foldl max q))
    | _ => (Option.none, Option.none)
  let emailCol := isEmailCol colName
  let invalidEmails := invalidEmailValues colName rows
  let idCol := isIdCol colName
  let dups := duplicateEntries colName rows
  let hasPlaceholder := nonNull.any (fun v => pyLower (pyStr v) ∈ placeholderValues)
  { null_count := nullCount
    null_pct := if sampleSize = 0 then 0 else (nullCount : ℚ) / sampleSize * 100
    distinct_count := distinctCount
    sample_values := sampleVals
    min? := minMax.1
    max? := minMax.2
    has_email_issues := emailCol && !invalidEmails.isEmpty
    email_invalid_count :=
      if emailCol ∧ invalidEmails ≠ [] then Option.some invalidEmails.length else Option.none
    email_invalid_examples :=
      if emailCol ∧ invalidEmails ≠ [] then Option.some ((invalidEmails.take 3).map pyStr)
      else Option.none
    has_duplicates := idCol && !dups.isEmpty
    duplicate_count :=
      if idCol ∧ dups ≠ [] then Option.some ((dups.map (fun p => p.2)).sum - dups.length)
      else Option.none
    has_placeholder := hasPlaceholder }

/-- Column metadata dict: `column_name` / `column_type` keys may be absent. -/
structure Column where
  column_name? : Option String
  column_type? : Option String
deriving DecidableEq, Repr

/-- Overwrite-or-append insertion into the `stats` dict. -/
def dictInsertStats (m : List (String × ColStats)) (k : String) (v : ColStats) :
    List (String × ColStats) :=
  if m.any (fun p => p.1 = k) then
    m.map (fun p => if p.1 = k then (k, v) else p)
  else m ++ [(k, v)]

/-- One iteration of the analyzer's column loop: skip falsy names
(`if not col_name: continue`, i.e. an absent key or `""`), else store the
column's stats. -/
def analyzeStep (rows : List SampleRow) (stats : List (String × ColStats))
    (col : Column) : List (String × ColStats) :=
  match col.column_name? with
  | Option.none => stats
  | Option.some name =>
      if name = "" then stats else dictInsertStats stats name (analyzeColumn name rows)

/-- `_analyze_sample_data_enhanced(columns, sample_rows)`: empty dict for an
empty row sample, else one `ColStats` per truthy column name. -/
def analyzeSampleDataEnhanced (columns : List Column) (rows : List SampleRow) :
    List (String × ColStats) :=
  if rows = [] then []
  else columns.foldl (analyzeStep rows) []

/- ----------------------------------------------------------------- -/
/- JSON values and `json.loads` (for `parse_json_response`)           -/
/- ----------------------------------------------------------------- -/

/-- A Python `json.loads` result value.  `nan` / `inf` model the
`NaN` / `Infinity` / `-Infinity` literals Python's json module accepts. -/
inductive JsonVal where
  | null
  | bool (b : Bool)
  | num (q : ℚ)
  | nan
  | inf (neg : Bool)
  | str (s : String)
  | arr (elems : List JsonVal)
  | obj (fields : List (String × JsonVal))

def JsonVal.isArray : JsonVal → Bool
  | JsonVal.arr _ => true
  | _ => false

/-- JSON whitespace accepted by `json.loads` between tokens. -/
def jsonWsChar (c : Char) : Bool :=
  c = ' ' || c = '\t' || c = '\n' || c = '\r'

def skipWs (cs : List Char) : List Char := cs.dropWhile jsonWsChar

def hexDigitVal (c : Char) : Option Nat :=
  if '0' ≤ c ∧ c ≤ '9' then Option.some (c.toNat - '0'.toNat)
  else if 'a' ≤ c ∧ c ≤ 'f' then Option.some (c.toNat - 'a'.toNat + 10)
  else if 'A' ≤ c ∧ c ≤ 'F' then Option.some (c.toNat - 'A'.toNat + 10)
  else Option.none

def parseHex4 (cs : List Char) : Option (Nat × List Char) :=
  match cs with
  | a :: b :: c :: d :: rest =>
      match hexDigitVal a, hexDigitVal b, hexDigitVal c, hexDigitVal d with
      | Option.some ha, Option.some hb, Option.some hc, Option.some hd =>
          Option.some (ha * 4096 + hb * 256 + hc * 16 + hd, rest)
      | _, _, _, _ => Option.none
  | _ => Option.none

/-- Parse the body of a JSON string (after the opening quote) up to the
closing quote, decoding escapes.  Surrogate pairs are combined as Python
does; a lone surrogate (which Python would keep as an unpaired code unit)
falls outside Lean's scalar `Char` values and is mapped through
`Char.ofNat`'s default — no claim exercises that corner.  Unescaped
control characters are rejected (`json.loads` strict mode). -/
def parseStringBody (fuel : Nat) (cs : List Char) (acc : List Char) :
    Option (String × List Char) :=
  match fuel with
  | 0 => Option.none
  | Nat.succ fuel =>
    match cs with
    | [] => Option.none
    | '"' :: rest => Option.some (String.mk acc.reverse, rest)
    | '\\' :: esc =>
        (match esc with
         | '"' :: r => parseStringBody fuel r ('"' :: acc)
         | '\\' :: r => parseStringBody fuel r ('\\' :: acc)
         | '/' :: r => parseStringBody fuel r ('/' :: acc)
         | 'b' :: r => parseStringBody fuel r ('\x08' :: acc)
         | 'f' :: r => parseStringBody fuel r ('\x0c' :: acc)
         | 'n' :: r => parseStringBody fuel r ('\n' :: acc)
         | 'r' :: r => parseStringBody fuel r ('\x0d' :: acc)
         | 't' :: r => parseStringBody fuel r ('\t' :: acc)
         | 'u' :: r =>
             (match parseHex4 r with
              | Option.some (n, r2) =>
                  if 0xd800 ≤ n ∧ n ≤ 0xdbff then
                    match r2 with
                    | '\\' :: 'u' :: r3 =>
                        (match parseHex4 r3 with
                         | Option.some (m, r4) =>
                             if 0xdc00 ≤ m ∧ m ≤ 0xdfff then
                               parseStringBody fuel r4
                                 (Char.ofNat (0x10000 + (n - 0xd800) * 0x400 + (m - 0xdc00)) :: acc)
                             else parseStringBody fuel r2 (Char.ofNat n :: acc)
                         | Option.none => parseStringBody fuel r2 (Char.ofNat n :: acc))
                    | _ => parseStringBody fuel r2 (Char.ofNat n :: acc)
                  else parseStringBody fuel r2 (Char.ofNat n :: acc)
              | Option.none => Option.none)
         | _ => Option.none)
    | c :: rest =>
        if c.toNat < 0x20 then Option.none
        else parseStringBody fuel rest (c :: acc)

def digitsToNat (ds : List Char) : Nat :=
  ds.foldl (fun a c => a * 10 + (c.toNat - '0'.toNat)) 0

/-- Parse a JSON number (`-? int frac? exp?`, no leading zeros, as the
strict JSON grammar `json.loads` implements). -/
def parseNumber (cs : List Char) : Option (ℚ × List Char) :=
  let (neg, cs1) :=
    match cs with
    | '-' :: t => (true, t)
    | t => (false, t)
  match cs1 with
  | [] => Option.none
  | c :: _ =>
    if !c.isDigit then Option.none
    else
      let intDigits := cs1.takeWhile Char.isDigit
      let cs2 := cs1.dropWhile Char.isDigit
      if c = '0' ∧ 1 < intDigits.length then Option.none
      else
        let fracRes : Option (List Char × List Char) :=
          match cs2 with
          | '.' :: t =>
              let fd := t.takeWhile Char.isDigit
              if fd = [] then Option.none else Option.some (fd, t.dropWhile Char.isDigit)
          | t => Option.some ([], t)
        match fracRes with
        | Option.none => Option.none
        | Option.some (fracDigits, cs3) =>
          let expRes : Option (Int × List Char) :=
            match cs3 with
            | 'e' :: t | 'E' :: t =>
                let (esign, t2) :=
                  match t with
                  | '-' :: u => ((-1 : Int), u)
                  | '+' :: u => ((1 : Int), u)
                  | u => ((1 : Int), u)
                let ed := t2.takeWhile Char.isDigit
                if ed = [] then Option.none
                else Option.some (esign * (digitsToNat ed : Int), t2.dropWhile Char.isDigit)
            | t => Option.some (0, t)
          match expRes with
          | Option.none => Option.none
          | Option.some (e, rest) =>
            let mant : ℚ :=
              (digitsToNat intDigits : ℚ) + (digitsToNat fracDigits : ℚ) / 10 ^ fracDigits.length
            let v := (if neg then -mant else mant) * (10 : ℚ) ^ e
            Option.some (v, rest)

/-- Python-dict insertion for JSON objects: repeated keys keep the first
position and the last value. -/
def dictInsert (kvs : List (String × JsonVal)) (k : String) (v : JsonVal) :
    List (String × JsonVal) :=
  if kvs.any (fun p => p.1 = k) then
    kvs.map (fun p => if p.1 = k then (k, v) else p)
  else kvs ++ [(k, v)]

def lbrace : Char := Char.ofNat 123
def rbrace : Char := Char.ofNat 125

mutual

/-- Recursive-descent JSON value parser (fuel-indexed; every recursive call
is made on a strictly shorter remainder, so `length + 1` fuel at top level
always suffices). -/
def parseValue : Nat → List Char → Option (JsonVal × List Char)
  | 0, _ => Option.none
  | Nat.succ fuel, cs =>
    match skipWs cs with
    | [] => Option.none
    | c :: rest =>
      if c = lbrace then
        match skipWs rest with
        | c2 :: r2 =>
            if c2 = rbrace then Option.some (JsonVal.obj [], r2)
            else parseMembers fuel rest []
        | [] => Option.none
      else if c = '[' then
        match skipWs rest with
        | ']' :: r2 => Option.some (JsonVal.arr [], r2)
        | _ => parseElems fuel rest []
      else if c = '"' then
        match parseStringBody (rest.length + 1) rest [] with
        | Option.some (s, r2) => Option.some (JsonVal.str s, r2)
        | Option.none => Option.none
      else
        match c :: rest with
        | 't' :: 'r' :: 'u' :: 'e' :: r => Option.some (JsonVal.bool true, r)
        | 'f' :: 'a' :: 'l' :: 's' :: 'e' :: r => Option.some (JsonVal.bool false, r)
        | 'n' :: 'u' :: 'l' :: 'l' :: r => Option.some (JsonVal.null, r)
        | 'N' :: 'a' :: 'N' :: r => Option.some (JsonVal.nan, r)
        | 'I' :: 'n' :: 'f' :: 'i' :: 'n' :: 'i' :: 't' :: 'y' :: r =>
            Option.some (JsonVal.inf false, r)
        | '-' :: 'I' :: 'n' :: 'f' :: 'i' :: 'n' :: 'i' :: 't' :: 'y' :: r =>
            Option.some (JsonVal.inf true, r)
        | l => (parseNumber l).map (fun p => (JsonVal.num p.1, p.2))

/-- Members of an object after the opening brace (at least one member). -/
def parseMembers : Nat → List Char → List (String × JsonVal) →
    Option (JsonVal × List Char)
  | 0, _, _ => Option.none
  | Nat.succ fuel, cs, acc =>
    match skipWs cs with
    | '"' :: rest =>
      (match parseStringBody (rest.length + 1) rest [] with
       | Option.some (k, r2) =>
         (match skipWs r2 with
          | ':' :: r3 =>
            (match parseValue fuel r3 with
             | Option.some (v, r4) =>
               let acc2 := dictInsert acc k v
               (match skipWs r4 with
                | ',' :: r5 => parseMembers fuel r5 acc2
                | c :: r5 =>
                    if c = rbrace then Option.some (JsonVal.obj acc2, r5) else Option.none
                | [] => Option.none)
             | Option.none => Option.none)
          | _ => Option.none)
       | Option.none => Option.none)
    | _ => Option.none

/-- Elements of an array after the opening bracket (at least one element). -/
def parseElems : Nat → List Char → List JsonVal → Option (JsonVal × List Char)
  | 0, _, _ => Option.none
  | Nat.succ fuel, cs, acc =>
    match parseValue fuel cs with
    | Option.some (v, r) =>
      (match skipWs r with
       | ',' :: r2 => parseElems fuel r2 (acc ++ [v])
       | ']' :: r2 => Option.some (JsonVal.arr (acc ++ [v]), r2)
       | _ => Option.none)
    | Option.none => Option.none

end

/-- `json.loads`: parse one JSON value, allowing only trailing whitespace. -/
def jsonParse (s : String) : Option JsonVal :=
  let cs := s.toList
  match parseValue (cs.length + 1) cs with
  | Option.some (v, rest) => if skipWs rest = [] then Option.some v else Option.none
  | Option.none => Option.none

/- ----------------------------------------------------------------- -/
/- `LLMClient.parse_json_response`                                    -/
/- ----------------------------------------------------------------- -/

/-- Python `s.find(sub, start)`: lowest index `≥ start` at which `sub`
occurs, `-1` when absent. -/
def pyFindFrom (cs sb : List Char) (start : Nat) : Int :=
  match (List.range (cs.length + 1)).find?
      (fun i => decide (start ≤ i) && decide (sb <+: cs.drop i)) with
  | Option.some i => (i : Int)
  | Option.none => -1

/-- Python slice `s[start:stop]` with `start ≥ 0` and a possibly negative
`stop` (as produced by a failed `find`). -/
def pySlice (cs : List Char) (start : Nat) (stop : Int) : List Char :=
  let e : Nat := if stop < 0 then ((cs.length : Int) + stop).toNat else min stop.toNat cs.length
  (cs.take e).drop start

/-- Python `str.strip()` whitespace for the ASCII range. -/
def pyStripWsChar (c : Char) : Bool :=
  c = ' ' || c = '\t' || c = '\n' || c = '\x0d' || c = '\x0b' || c = '\x0c'

def pyStrip (cs : List Char) : List Char :=
  ((cs.dropWhile pyStripWsChar).reverse.dropWhile pyStripWsChar).reverse

def fenceChars : List Char := "```".toList
def fenceJsonChars : List Char := "```json".toList

/-- The markdown code-fence stripping at the head of `parse_json_response`:
prefer a ```json fence, else any ``` fence; with no closing fence the
Python `find` yields `-1` and the slice drops the final character. -/
def stripCodeBlocks (response : String) : String :=
  let cs := response.toList
  if pyFindFrom cs fenceJsonChars 0 ≠ -1 then
    let start := (pyFindFrom cs fenceJsonChars 0).toNat + 7
    let stop := pyFindFrom cs fenceChars start
    String.mk (pyStrip (pySlice cs start stop))
  else if pyFindFrom cs fenceChars 0 ≠ -1 then
    let start := (pyFindFrom cs fenceChars 0).toNat + 3
    let stop := pyFindFrom cs fenceChars start
    String.mk (pyStrip (pySlice cs start stop))
  else response

/-- `LLMClient.parse_json_response`: strip an optional fence, `json.loads`
the rest; a parse failure raises `ValueError` (modelled as `Except.error`;
the embedding keeps the fixed message prefix, eliding the interpolated
`JSONDecodeError` detail). -/
def parse_json_response (response : String) : Except String JsonVal :=
  let stripped := stripCodeBlocks response
  match jsonParse stripped with
  | Option.some v => Except.ok v
  | Option.none => Except.error "LLM returned invalid JSON"

/- ----------------------------------------------------------------- -/
/- `llm_sugg_models.py`: Severity and DataQualityRule (pydantic v2)   -/
/- ----------------------------------------------------------------- -/

inductive Severity where
  | critical
  | high
  | medium
deriving DecidableEq, Repr

/-- The `Severity(str, Enum)` coercion pydantic applies to a JSON string. -/
def severityOfString (s : String) : Option Severity :=
  if s = "critical" then Option.some Severity.critical
  else if s = "high" then Option.some Severity.high
  else if s = "medium" then Option.some Severity.medium
  else Option.none

structure DataQualityRule where
  column : String
  issues : List String
  recommendation : String
  severity : Severity
deriving DecidableEq, Repr

def jsonLookup (kvs : List (String × JsonVal)) (k : String) : Option JsonVal :=
  (kvs.find? (fun p => p.1 = k)).map (fun p => p.2)

def asStr : JsonVal → Option String
  | JsonVal.str s => Option.some s
  | _ => Option.none

def asStrList : JsonVal → Option (List String)
  | JsonVal.arr xs => xs.mapM asStr
  | _ => Option.none

/-- `DataQualityRule(**rule_data)` under pydantic v2 on JSON-derived data:
`rule_data` must be a mapping (anything else raises `TypeError`, caught by
the loop's `except Exception`), every declared field must be present with
the declared JSON type, `severity` must be one of the three enum literals;
extra keys are ignored (pydantic default).  `Option.none` models any
construction failure. -/
def tryRule (v : JsonVal) : Option DataQualityRule :=
  match v with
  | JsonVal.obj kvs =>
      match jsonLookup kvs "column" >>= asStr,
            jsonLookup kvs "issues" >>= asStrList,
            jsonLookup kvs "recommendation" >>= asStr,
            jsonLookup kvs "severity" >>= asStr with
      | Option.some column, Option.some issues, Option.some recommendation,
        Option.some sev =>
          (severityOfString sev).map
            (fun severity => DataQualityRule.mk column issues recommendation severity)
      | _, _, _, _ => Option.none
  | _ => Option.none

/-- Python `for rule_data in rules_json`: iterating a list yields its
elements, a dict its keys, a string its characters; numbers / booleans /
`None` raise `TypeError` at the `for` statement itself (outside the loop's
`try`), so that failure propagates. -/
def pyIterate : JsonVal → Except String (List JsonVal)
  | JsonVal.arr xs => Except.ok xs
  | JsonVal.obj kvs => Except.ok (kvs.map (fun p => JsonVal.str p.1))
  | JsonVal.str s => Except.ok (s.toList.map (fun c => JsonVal.str (String.mk [c])))
  | _ => Except.error "TypeError: object is not iterable"

/- ----------------------------------------------------------------- -/
/- `LLMClient.__init__`, `_init_client`, `generate`                   -/
/- ----------------------------------------------------------------- -/

inductive Backend where
  | groq
  | openai
  | anthropic
  | ollama
deriving DecidableEq, Repr

/-- The slice of `Settings` the client reads. -/
structure Settings where
  llm_provider : String
  llm_model : String
deriving DecidableEq, Repr

structure LLMClientState where
  provider : String
  model : String
  client : Option Backend
deriving DecidableEq, Repr

/-- `LLMClient.__init__`: three attribute assignments; it cannot raise, so
the embedding is a total function. -/
def LLMClient.init (s : Settings) : LLMClientState :=
  LLMClientState.mk s.llm_provider s.llm_model Option.none

/-- `LLMClient._init_client`: lazily construct the backend handle once;
an unknown provider raises `ValueError(f"Unsupported provider: ...")`.
The per-provider `import` statements depend on the host environment and
are modelled as succeeding. -/
def initClient (st : LLMClientState) : Except String LLMClientState :=
  if st.client.isSome then Except.ok st
  else if st.provider = "groq" then
    Except.ok (LLMClientState.mk st.provider st.model (Option.some Backend.groq))
  else if st.provider = "openai" then
    Except.ok (LLMClientState.mk st.provider st.model (Option.some Backend.openai))
  else if st.provider = "anthropic" then
    Except.ok (LLMClientState.mk st.provider st.model (Option.some Backend.anthropic))
  else if st.provider = "ollama" then
    Except.ok (LLMClientState.mk st.provider st.model (Option.some Backend.ollama))
  else Except.error ("Unsupported provider: " ++ st.provider)

/-- A generation backend: the SDK call a provider branch of
`LLMClient.generate` performs (network effects abstracted as a function
from the two prompts to a result).  The fixed sampling parameters of each
branch are constants folded into the branch's backend. -/
def BackendGen := Backend → String → String → Except String String

/-- `LLMClient.generate`: initialize the handle (outside the `try`, so an
unknown provider errors before any backend call), then dispatch to the
provider's backend; backend failures are logged and re-raised unchanged. -/
def LLMClient.generate (bg : BackendGen) (st : LLMClientState)
    (systemPrompt userPrompt : String) : Except String (LLMClientState × String) :=
  match initClient st with
  | Except.error e => Except.error e
  | Except.ok st2 =>
    match st2.client with
    | Option.some b =>
        match bg b systemPrompt userPrompt with
        | Except.ok text => Except.ok (st2, text)
        | Except.error e => Except.error e
    | Option.none => Except.error "unreachable: _init_client sets a client or raises"

/- ----------------------------------------------------------------- -/
/- `prompts.py`: SYSTEM_PROMPT and build_user_prompt                  -/
/- ----------------------------------------------------------------- -/

/-- The system prompt of `prompts.py`, verbatim. -/
def SYSTEM_PROMPT : String := String.intercalate "\n" [
    "You are a data quality auditor reviewing sample data. Your role is to identify specific, observable data quality issues and suggest validation rules.",
    "",
    "<MISSION>",
    "Scan every value in the provided sample rows. ONLY report a column if at least one specific value demonstrates a clear issue. Quote the exact row identifier and problematic value.",
    "</MISSION>",
    "",
    "<RULES>",
    "1. Base all findings SOLELY on the provided sample data",
    "2. Do not infer problems from column names or types alone",
    "3. If a problem isn\x27t visible in the samples, assume the column is fine",
    "4. Report format inconsistencies ONLY if >10% of non-null values deviate from the dominant pattern",
    "5. Quote exact values and row identifiers for every issue reported",
    "</RULES>",
    "",
    "<PROBLEM_TYPES>",
    "Report ONLY these observable issues:",
    "",
    "1. FORMAT VIOLATIONS",
    "   ❌ REPORT IF: Email missing @ symbol (e.g., value=\"test\", value=\"user.domain.com\")",
    "   ❌ REPORT IF: Phone has inconsistent format (e.g., some \"+XXX\", some \"0X-XX\")",
    "   ❌ REPORT IF: ID/code format inconsistency visible in >10% of values",
    "   ✅ SKIP IF: All values follow expected format",
    "",
    "2. INVALID VALUES",
    "   ❌ REPORT IF: Negative age, price, or quantity where illogical",
    "   ❌ REPORT IF: Unrealistic ranges (age>120, price=999999)",
    "   ❌ REPORT IF: Future dates in registration/creation fields",
    "   ✅ SKIP IF: All values within reasonable bounds",
    "",
    "3. CONSISTENCY ISSUES",
    "   ❌ REPORT IF: Duplicate IDs visible in sample",
    "   ❌ REPORT IF: Date ordering violations (end_date < start_date)",
    "   ❌ REPORT IF: Contradictions (status=\x27paid\x27 but amount=0)",
    "   ✅ SKIP IF: No duplicates or contradictions found",
    "",
    "4. STANDARDIZATION ISSUES",
    "   ❌ REPORT IF: Mixed formats in same column (dates as \"2023-01-01\" and \"01/01/2023\")",
    "   ❌ REPORT IF: Mixed cases in categorical fields (\"ACTIVE\" and \"active\")",
    "   ❌ REPORT IF: Placeholder values in production (\"test\", \"dummy\", \"N/A\", \"xxx\")",
    "   ✅ SKIP IF: Formatting is consistent",
    "",
    "5. BUSINESS LOGIC VIOLATIONS",
    "   ❌ REPORT IF: Status values outside expected set",
    "   ❌ REPORT IF: Referential integrity issues observable in sample",
    "   ✅ SKIP IF: All values conform to business rules",
    "</PROBLEM_TYPES>",
    "",
    "<OUTPUT_FORMAT>",
    "[",
    "  \x7b",
    "    \"column\": \"column_name\",",
    "    \"issues\": [",
    "      \"Observed pattern: 8/10 values have \x27@\x27, 2 values are \x27test\x27 (rows: id=944043, id=123)\",",
    "      \"Problem: Invalid email format prevents communication\"",
    "    ],",
    "    \"recommendation\": \"Apply email validation regex: ^[a-zA-Z0-9._%+-]+@[a-zA-Z0-9.-]+\\.[a-zA-Z]\x7b2,\x7d$ to reject values without @ symbol\",",
    "    \"severity\": \"high\"",
    "  \x7d",
    "]",
    "",
    "Severity definitions:",
    "- high: Could cause business errors (invalid emails block communication, negative prices break billing)",
    "- medium: Improves consistency but not critical (mixed cases, format standardization)",
    "</OUTPUT_FORMAT>",
    "",
    "<NEGATIVE_EXAMPLES>",
    "DO NOT OUTPUT:",
    "\x7b",
    "  \"column\": \"name\",",
    "  \"issues\": [\"Could potentially have typos\"],",
    "  \"recommendation\": \"Add spell check\",",
    "  \"severity\": \"low\"",
    "\x7d",
    "Reason: No actual typos observed in sample—this is speculation.",
    "",
    "DO NOT OUTPUT:",
    "\x7b",
    "  \"column\": \"age\",",
    "  \"issues\": [\"Values are numeric\"],",
    "  \"recommendation\": \"Validate age range\",",
    "  \"severity\": \"medium\"",
    "\x7d",
    "Reason: No invalid ages found—column is fine, should be skipped.",
    "</NEGATIVE_EXAMPLES>",
    "",
    "<POSITIVE_EXAMPLES>",
    "✅ GOOD OUTPUT:",
    "\x7b",
    "  \"column\": \"email\",",
    "  \"issues\": [",
    "    \"Value \x27test\x27 in row clientid=944043 has no @ symbol\",",
    "    \"Value \x27user.domain.com\x27 in row clientid=567 missing @ symbol\",",
    "    \"2 out of 10 emails (20%) are invalid\"",
    "  ],",
    "  \"recommendation\": \"Apply regex: ^[a-zA-Z0-9._%+-]+@[a-zA-Z0-9.-]+\\.[a-zA-Z]\x7b2,\x7d$ to validate email format. Reject placeholder values like \x27test\x27, \x27dummy\x27.\",",
    "  \"severity\": \"high\"",
    "\x7d",
    "",
    "✅ GOOD OUTPUT:",
    "\x7b",
    "  \"column\": \"dateinscription\",",
    "  \"issues\": [",
    "    \"Row clientid=1643985 has dateinscription=\x272022-11-25\x27 which is after timestamp=\x272022-02-10\x27 (future registration)\",",
    "    \"Logical constraint violated: registration should occur before processing\"",
    "  ],",
    "  \"recommendation\": \"Add constraint: dateinscription <= timestamp AND dateinscription <= CURRENT_DATE to prevent future dates.\",",
    "  \"severity\": \"high\"",
    "\x7d",
    "",
    "✅ GOOD OUTPUT (cross-column):",
    "\x7b",
    "  \"column\": \"start_date,end_date\",",
    "  \"issues\": [",
    "    \"Row id=55 has end_date=\x272023-01-01\x27 before start_date=\x272023-06-01\x27\",",
    "    \"Date ordering violation found in 1 out of 50 rows (2%)\"",
    "  ],",
    "  \"recommendation\": \"Add constraint: end_date >= start_date to enforce logical date ordering.\",",
    "  \"severity\": \"high\"",
    "\x7d",
    "</POSITIVE_EXAMPLES>",
    "",
    "<EDGE_CASES>",
    "- If sample has <5 rows: Output [] with note \"Insufficient data for analysis (need ≥5 rows)\"",
    "- If all columns are fine: Output exactly: []",
    "- If column has 100% nulls and seems optional: SKIP (don\x27t report high null rate)",
    "- If column has 100% nulls and is an ID field: REPORT as critical issue",
    "</EDGE_CASES>",
    "",
    "<FINAL_REMINDERS>",
    "✓ Quote exact values and row IDs for every issue",
    "✓ Calculate percentages (X out of Y values)",
    "✓ Provide specific regex, constraints, or enum values",
    "✓ Use chain-of-thought: observe → quantify → decide → output",
    "✗ Don\x27t report \"could have\" or \"might be\" issues",
    "✗ Don\x27t suggest validation unless problem is visible",
    "✗ Don\x27t over-report—precision over recall",
    "</FINAL_REMINDERS>"]

/-- The constant tail of the full-path user prompt, from `<TASK>` to the end, verbatim. -/
def promptTaskTail : String := String.intercalate "\n" [
    "<TASK>",
    "Think step-by-step:",
    "",
    "STEP 1: SCAN EVERY VALUE",
    "For each column, examine every value in the sample data above.",
    "",
    "STEP 2: IDENTIFY PATTERNS",
    "- Email columns: Count how many have @ symbol vs missing @",
    "- Phone columns: Note format variations (\"+XXX\" vs \"0X-XX-XX\")",
    "- Date columns: Check for future dates, format consistency",
    "- Numeric columns: Check for negative values, unrealistic ranges",
    "- Category columns: List distinct values, check for unexpected ones",
    "- ID columns: Check for duplicates in the sample",
    "",
    "STEP 3: QUANTIFY ISSUES",
    "Calculate percentages: \"X out of Y values have problem (Z%)\"",
    "Only report if >10% of non-null values show the issue OR if it\x27s a critical field (ID, email)",
    "",
    "STEP 4: DECIDE & OUTPUT",
    "For each column with a real, quantified issue:",
    "- Quote exact problematic values with row IDs",
    "- State the observed pattern with numbers",
    "- Provide specific validation rule (regex, constraint, enum)",
    "- Assign severity (high=business critical, medium=quality improvement)",
    "",
    "Skip columns that look fine after analysis.",
    "</TASK>",
    "",
    "<FOCUS_AREAS>",
    "1. EMAIL columns (email, e_mail, mail):",
    "   → Does EVERY value contain @? If not, count how many are invalid and quote examples",
    "",
    "2. PHONE columns (telephone, phone, mobile):",
    "   → Do all follow same format? If mixed, show examples of each format",
    "",
    "3. DATE/TIMESTAMP columns:",
    "   → Any future dates where illogical? Any format inconsistencies?",
    "",
    "4. NUMERIC columns (age, price, amount, quantity):",
    "   → Any negative where invalid? Any unrealistic (age>120)?",
    "",
    "5. CATEGORY/STATUS columns:",
    "   → List all distinct values. Any unexpected? Suggest enum if appropriate",
    "",
    "6. ID/CODE columns:",
    "   → Any duplicates in sample? Any format inconsistencies?",
    "",
    "7. TEXT/ADDRESS columns:",
    "   → Any placeholder values (\"test\", \"dummy\", \"N/A\")?",
    "",
    "8. CROSS-COLUMN logic:",
    "   → Any date ordering issues? Any contradictions?",
    "</FOCUS_AREAS>",
    "",
    "<OUTPUT_INSTRUCTION>",
    "Based on your step-by-step analysis, output JSON array of ONLY columns with real problems.",
    "",
    "Include:",
    "- Exact values and row IDs",
    "- Quantified patterns (X out of Y)",
    "- Specific validation rules (regex/constraints)",
    "",
    "If no problems found after thorough analysis, output exactly: []",
    "</OUTPUT_INSTRUCTION>"]

/-- Lowercase hex rendering of one digit. -/
def hexDigitChar (n : Nat) : Char :=
  if n < 10 then Char.ofNat (48 + n) else Char.ofNat (97 + n - 10)

def hex4 (n : Nat) : String :=
  String.mk [hexDigitChar (n / 4096 % 16), hexDigitChar (n / 256 % 16),
    hexDigitChar (n / 16 % 16), hexDigitChar (n % 16)]

/-- `json.dumps` escaping of one character with `ensure_ascii=True`
(default): short escapes, `\uXXXX` for other control and non-ASCII
characters, surrogate pairs beyond the BMP. -/
def jsonEscapeChar (c : Char) : String :=
  if c = '"' then "\\\"" else if c = '\\' then "\\\\"
  else if c = '\n' then "\\n" else if c = '\x0d' then "\\r" else if c = '\t' then "\\t"
  else if c = '\x08' then "\\b" else if c = '\x0c' then "\\f"
  else if c.toNat < 0x20 || 0x7e < c.toNat then
    if c.toNat ≤ 0xffff then "\\u" ++ hex4 c.toNat
    else
      "\\u" ++ hex4 (0xd800 + (c.toNat - 0x10000) / 0x400)
        ++ "\\u" ++ hex4 (0xdc00 + (c.toNat - 0x10000) % 0x400)
  else String.mk [c]

def jsonEscape (s : String) : String :=
  String.join (s.toList.map jsonEscapeChar)

/-- `json.dumps` of one sample-row value (all values of the universe are
JSON-serializable, so `default=str` never fires). -/
def jsonDumpsPyVal : PyVal → String
  | PyVal.none => "null"
  | PyVal.int n => toString n
  | PyVal.str s => "\"" ++ jsonEscape s ++ "\""

/-- `json.dumps(rows, indent=2, default=str)` for a list of row dicts. -/
def jsonDumpsRows (rows : List SampleRow) : String :=
  if rows = [] then "[]"
  else
    "[\n" ++ String.intercalate ",\n" (rows.map (fun r =>
      if r = [] then "  \x7b\x7d"
      else
        "  \x7b\n" ++ String.intercalate ",\n" (r.map (fun p =>
          "    \"" ++ jsonEscape p.1 ++ "\": " ++ jsonDumpsPyVal p.2)) ++ "\n  \x7d"))
      ++ "\n]"

/-- Python `f"\x7bx:.0f\x7d"`: round-half-even to an integer. -/
def formatDotZeroF (q : ℚ) : String :=
  let fl : Int := Int.floor q
  let frac : ℚ := q - fl
  let r : Int :=
    if frac < 1 / 2 then fl
    else if 1 / 2 < frac then fl + 1
    else if fl % 2 = 0 then fl else fl + 1
  toString r

/-- Best-effort Python `str(float)` for the rationals `pyFloat` produces:
exact for terminating decimal expansions of at most 20 digits, which
covers the simple numerals of the value universe.  No claim depends on
this rendering. -/
def ratToPyFloatStr (q : ℚ) : String :=
  let aq := |q|
  let ip : Nat := (Int.floor aq).toNat
  let step := fun (acc : List Char × ℚ) (_ : Nat) =>
    let x := acc.2 * 10
    (acc.1 ++ (toString ((Int.floor x).toNat)).toList, x - Int.floor x)
  let res := (List.range 20).foldl step ([], aq - Int.floor aq)
  let fracDigits := (res.1.reverse.dropWhile (fun c => c = '0')).reverse
  let fracStr := if fracDigits = [] then "0" else String.mk fracDigits
  (if q < 0 then "-" else "") ++ toString ip ++ "." ++ fracStr

/-- `stats.get(col_name, \x7b\x7d)`: the per-column dict, absent when the
analyzer skipped the column. -/
def colStatsOrDefault (stats : List (String × ColStats)) (name : String) :
    Option ColStats :=
  (stats.find? (fun p => p.1 = name)).map (fun p => p.2)

/-- One entry of `column_summaries` in `build_user_prompt` (the loop body
over `columns`).  Dict keys read with defaults exactly as the source does;
keys read unconditionally (`email_invalid_count`, `duplicate_count`,
`max`) are set whenever their guarding flag is. -/
def columnSummary (stats : List (String × ColStats)) (nRows : Nat) (col : Column) :
    String :=
  let colName := col.column_name?.getD "unknown"
  let colType := col.column_type?.getD "unknown"
  let st? := colStatsOrDefault stats colName
  let summary := "  • " ++ colName ++ " (" ++ colType ++ ")"
  let nullCount := match st? with
    | Option.some st => st.null_count
    | Option.none => 0
  let nullPct : ℚ := match st? with
    | Option.some st => st.null_pct
    | Option.none => 0
  let insights1 : List String :=
    if 0 < nullCount then
      [formatDotZeroF nullPct ++ "% null (" ++ toString nullCount ++ "/"
        ++ toString nRows ++ ")"]
    else []
  let distinct := match st? with
    | Option.some st => st.distinct_count
    | Option.none => 0
  let insights2 :=
    if 0 < distinct ∧ distinct ≤ 10 then
      let vals := match st? with
        | Option.some st => st.sample_values.getD []
        | Option.none => []
      insights1 ++ ["values: " ++ String.intercalate ", " vals]
    else if 0 < distinct then insights1 ++ [toString distinct ++ " distinct"]
    else insights1
  let insights3 :=
    match st? with
    | Option.some st =>
      (match st.min?, st.max? with
       | Option.some mn, Option.some mx =>
           insights2 ++ ["range: [" ++ ratToPyFloatStr mn ++ ", "
             ++ ratToPyFloatStr mx ++ "]"]
       | _, _ => insights2)
    | Option.none => insights2
  let insights4 :=
    match st? with
    | Option.some st =>
        let a := if st.has_email_issues then
            insights3 ++ ["⚠️ " ++ toString (st.email_invalid_count.getD 0)
              ++ " invalid emails"]
          else insights3
        let b := if st.has_duplicates then
            a ++ ["⚠️ " ++ toString (st.duplicate_count.getD 0) ++ " duplicates"]
          else a
        if st.has_placeholder then b ++ ["⚠️ contains placeholder values"] else b
    | Option.none => insights3
  if insights4 = [] then summary
  else summary ++ "\n    → " ++ String.intercalate " | " insights4

/-- The `table_info` dict handed to `generate_suggestions`; keys may be
absent, read with default `"unknown"`. -/
structure TableInfo where
  source_key? : Option String
  schema_name? : Option String
  table_name? : Option String
  columns : List Column

/-- `build_user_prompt(table_info, sample_rows)`: the insufficient-data
instruction for fewer than 5 rows, else the full chain-of-thought prompt
around the analyzer output and the first 10 raw rows. -/
def build_user_prompt (table_info : TableInfo) (sample_rows : List SampleRow) :
    String :=
  let schema_name := table_info.schema_name?.getD "unknown"
  let table_name := table_info.table_name?.getD "unknown"
  let columns := table_info.columns
  if sample_rows.length < 5 then
    "<DATA>\nTABLE: " ++ schema_name ++ "." ++ table_name ++ "\nSAMPLE: "
      ++ toString sample_rows.length
      ++ " rows (INSUFFICIENT)\n</DATA>\n\n<INSTRUCTION>\nOutput exactly: []\nNote: \"Insufficient data for analysis (need ≥5 rows)\"\n</INSTRUCTION>"
  else
    let stats := analyzeSampleDataEnhanced columns sample_rows
    let columns_text :=
      String.intercalate "\n" (columns.map (columnSummary stats sample_rows.length))
    let sample_text := jsonDumpsRows (sample_rows.take 10)
    let sample_warning :=
      if sample_rows.length < 10 then
        "\n⚠️ CAUTION: Limited samples—only report glaring, obvious issues."
      else ""
    "<DATA>\nTABLE: " ++ schema_name ++ "." ++ table_name ++ "\nSAMPLE SIZE: "
      ++ toString sample_rows.length ++ " rows" ++ sample_warning
      ++ "\n\nCOLUMN SUMMARY (pre-computed insights):\n" ++ columns_text
      ++ "\n\nRAW SAMPLE DATA (scan every value):\n" ++ sample_text
      ++ "\n</DATA>\n\n" ++ promptTaskTail

/- ----------------------------------------------------------------- -/
/- `llm_sugg_service.py`: the suggestion pipeline                     -/
/- ----------------------------------------------------------------- -/

/-- `LLMSuggestionsService.generate_suggestions`: build the user prompt,
generate, parse, and keep every array element that constructs a
`DataQualityRule`, skipping the rest (`filterMap` preserves order). -/
def generate_suggestions (bg : BackendGen) (settings : Settings)
    (table_info : TableInfo) (sample_rows : List SampleRow) :
    Except String (List DataQualityRule) :=
  let client := LLMClient.init settings
  let user_prompt := build_user_prompt table_info sample_rows
  match LLMClient.generate bg client SYSTEM_PROMPT user_prompt with
  | Except.error e => Except.error e
  | Except.ok (_, response) =>
    match parse_json_response response with
    | Except.error e => Except.error e
    | Except.ok rules_json =>
      match pyIterate rules_json with
      | Except.error e => Except.error e
      | Except.ok elems => Except.ok (elems.filterMap tryRule)

/-- `SuggestionResponse` (the SuggestionRun envelope). -/
structure SuggestionResponse where
  source_key : String
  schema_name : String
  table_name : String
  rules : List DataQualityRule
  row_count_analyzed : Nat
  model_used : String
  metadata : List (String × PyVal)
deriving DecidableEq, Repr

/-- `LLMSuggestionsService.generate_suggestions_response`. -/
def generate_suggestions_response (bg : BackendGen) (settings : Settings)
    (source_key schema_name table_name : String)
    (columns : List Column) (sample_rows : List SampleRow) :
    Except String SuggestionResponse :=
  let table_info := TableInfo.mk (Option.some source_key) (Option.some schema_name)
    (Option.some table_name) columns
  match generate_suggestions bg settings table_info sample_rows with
  | Except.error e => Except.error e
  | Except.ok rules =>
    Except.ok (SuggestionResponse.mk source_key schema_name table_name rules
      sample_rows.length settings.llm_model
      [("column_count", PyVal.int columns.length),
       ("provider", PyVal.str settings.llm_provider)])

/- ----------------------------------------------------------------- -/
/- Helper lemmas                                                      -/
/- ----------------------------------------------------------------- -/

lemma length_sub_filter_not {α : Type} (l : List α) (p : α → Bool) :
    l.length - (l.filter (fun v => !p v)).length = (l.filter p).length := by
  induction l with
  | nil => rfl
  | cons a t ih =>
      have hle := List.length_filter_le (fun v => !p v) t
      by_cases h : p a = true <;>
        simp only [List.filter_cons, h, Bool.not_true, Bool.not_false, if_pos, if_neg,
          Bool.false_eq_true, not_false_eq_true, List.length_cons, ite_true, ite_false] <;>
        omega

lemma length_le_sum_snd (l : List (String × Nat)) (h : ∀ p ∈ l, 1 ≤ p.2) :
    l.length ≤ (l.map (fun p => p.2)).sum := by
  induction l with
  | nil => simp
  | cons a t ih =>
      have h1 := h a (by simp)
      have h2 := ih (fun p hp => h p (by simp [hp]))
      simp only [List.map_cons, List.sum_cons, List.length_cons]
      omega

lemma sum_sub_length_snd (l : List (String × Nat)) (h : ∀ p ∈ l, 1 ≤ p.2) :
    (l.map (fun p => p.2)).sum - l.length = (l.map (fun p => p.2 - 1)).sum := by
  induction l with
  | nil => rfl
  | cons a t ih =>
      have h1 := h a (by simp)
      have h2 := length_le_sum_snd t (fun p hp => h p (by simp [hp]))
      have h3 := ih (fun p hp => h p (by simp [hp]))
      simp only [List.map_cons, List.sum_cons, List.length_cons]
      omega

lemma bumpCount_spec {m : List (String × Nat)} {l : List String} (k : String)
    (hnd : (m.map Prod.fst).Nodup)
    (hmem : ∀ p : String × Nat, p ∈ m ↔ (p.1 ∈ l ∧ p.2 = l.count p.1)) :
    ((bumpCount m k).map Prod.fst).Nodup ∧
      ∀ p : String × Nat, p ∈ bumpCount m k ↔
        (p.1 ∈ l ++ [k] ∧ p.2 = (l ++ [k]).count p.1) := by
  have hcnt : ∀ x : String, (l ++ [k]).count x = l.count x + if x = k then 1 else 0 := by
    intro x
    rw [List.count_append]
    by_cases hx : x = k <;> simp [List.count_singleton', hx, eq_comm]
  by_cases hk : m.any (fun p => p.1 = k) = true
  case pos =>
    obtain ⟨q, hq, hqk⟩ := List.any_eq_true.mp hk
    have hqk' : q.1 = k := by simpa using hqk
    have hq' := (hmem q).mp hq
    unfold bumpCount
    rw [if_pos hk]
    have hkeys : (m.map (fun p => if p.1 = k then (p.1, p.2 + 1) else p)).map Prod.fst
        = m.map Prod.fst := by
      rw [List.map_map]
      apply List.map_congr_left
      intro p _
      by_cases hp : p.1 = k <;> simp [hp]
    refine ⟨by rw [hkeys]; exact hnd, fun p => ⟨?_, ?_⟩⟩
    · intro hp
      obtain ⟨p₀, hp₀, hfp⟩ := List.mem_map.mp hp
      have h0 := (hmem p₀).mp hp₀
      by_cases hpk : p₀.1 = k
      · rw [if_pos hpk] at hfp
        subst hfp
        refine ⟨List.mem_append.mpr (Or.inl h0.1), ?_⟩
        show p₀.2 + 1 = (l ++ [k]).count p₀.1
        rw [hcnt, if_pos hpk]
        omega
      · rw [if_neg hpk] at hfp
        subst hfp
        refine ⟨List.mem_append.mpr (Or.inl h0.1), ?_⟩
        rw [hcnt, if_neg hpk]
        omega
    · rintro ⟨hp1, hp2⟩
      by_cases hpk : p.1 = k
      · refine List.mem_map.mpr ⟨q, hq, ?_⟩
        rw [if_pos hqk']
        have hp2' : p.2 = l.count k + 1 := by
          rw [hp2, hcnt, if_pos hpk, hpk]
        have hq2 : q.2 = l.count k := by rw [hq'.2, hqk']
        have hqq : (q.1, q.2 + 1) = (k, l.count k + 1) := by rw [hqk', hq2]
        rw [hqq]
        cases p with
        | mk pa pb =>
          simp only [Prod.mk.injEq]
          simp only at hpk hp2'
          exact ⟨hpk.symm, hp2'.symm⟩
      · have hp1' : p.1 ∈ l := by
          rcases List.mem_append.mp hp1 with h | h
          · exact h
          · exact absurd (by simpa using h) hpk
        have hp2' : p.2 = l.count p.1 := by
          rw [hp2, hcnt, if_neg hpk]
          omega
        refine List.mem_map.mpr ⟨p, (hmem p).mpr ⟨hp1', hp2'⟩, ?_⟩
        rw [if_neg hpk]
  case neg =>
    have hknotin : ∀ q ∈ m, q.1 ≠ k := fun q hq hqk =>
      hk (List.any_eq_true.mpr ⟨q, hq, by simpa using hqk⟩)
    have hkl : k ∉ l := fun hkl =>
      hknotin (k, l.count k) ((hmem _).mpr ⟨hkl, rfl⟩) rfl
    unfold bumpCount
    rw [if_neg hk]
    refine ⟨?_, fun p => ⟨?_, ?_⟩⟩
    · rw [List.map_append]
      refine List.Nodup.append hnd (by simp) ?_
      intro x hx hx'
      obtain ⟨q, hq, hqx⟩ := List.mem_map.mp hx
      simp only [List.map_cons, List.map_nil, List.mem_singleton] at hx'
      exact hknotin q hq (by rw [hqx, hx'])
    · intro hp
      rcases List.mem_append.mp hp with hp | hp
      · have h0 := (hmem p).mp hp
        have hpk := hknotin p hp
        refine ⟨List.mem_append.mpr (Or.inl h0.1), ?_⟩
        rw [hcnt, if_neg hpk]
        omega
      · simp only [List.mem_singleton] at hp
        subst hp
        refine ⟨List.mem_append.mpr (Or.inr (by simp)), ?_⟩
        show (1 : Nat) = (l ++ [k]).count k
        rw [hcnt, if_pos rfl, List.count_eq_zero.mpr hkl]
    · rintro ⟨hp1, hp2⟩
      by_cases hpk : p.1 = k
      · refine List.mem_append.mpr (Or.inr ?_)
        have hp2' : p.2 = 1 := by
          rw [hp2, hcnt, if_pos hpk, hpk, List.count_eq_zero.mpr hkl]
        cases p with
        | mk pa pb =>
          simp only [List.mem_singleton, Prod.mk.injEq]
          simp only at hpk hp2'
          exact ⟨hpk, hp2'⟩
      · refine List.mem_append.mpr (Or.inl ?_)
        have hp1' : p.1 ∈ l := by
          rcases List.mem_append.mp hp1 with h | h
          · exact h
          · exact absurd (by simpa using h) hpk
        refine (hmem p).mpr ⟨hp1', ?_⟩
        rw [hp2, hcnt, if_neg hpk]
        omega

lemma valueCounts_append_singleton (l : List String) (k : String) :
    valueCounts (l ++ [k]) = bumpCount (valueCounts l) k := by
  unfold valueCounts
  rw [List.foldl_append]
  rfl

lemma valueCounts_spec (l : List String) :
    ((valueCounts l).map Prod.fst).Nodup ∧
      ∀ p : String × Nat, p ∈ valueCounts l ↔ (p.1 ∈ l ∧ p.2 = l.count p.1) := by
  induction l using List.reverseRecOn with
  | nil =>
      refine ⟨by simp [valueCounts], ?_⟩
      intro p
      simp [valueCounts]
  | append_singleton l k ih =>
      rw [valueCounts_append_singleton]
      exact bumpCount_spec k ih.1 ih.2

lemma dictInsertStats_inv {m : List (String × ColStats)} {rows : List SampleRow}
    (k : String) (hm : ∀ p ∈ m, p.2 = analyzeColumn p.1 rows) :
    ∀ p ∈ dictInsertStats m k (analyzeColumn k rows), p.2 = analyzeColumn p.1 rows := by
  intro p hp
  unfold dictInsertStats at hp
  by_cases hk : m.any (fun p => p.1 = k) = true
  · rw [if_pos hk] at hp
    obtain ⟨p₀, hp₀, hfp⟩ := List.mem_map.mp hp
    by_cases hpk : p₀.1 = k
    · rw [if_pos hpk] at hfp
      subst hfp
      rfl
    · rw [if_neg hpk] at hfp
      subst hfp
      exact hm p₀ hp₀
  · rw [if_neg hk] at hp
    rcases List.mem_append.mp hp with hp | hp
    · exact hm p hp
    · simp only [List.mem_singleton] at hp
      subst hp
      rfl

lemma analyzeStep_foldl_inv (rows : List SampleRow) :
    ∀ (cols : List Column) (m : List (String × ColStats)),
      (∀ p ∈ m, p.2 = analyzeColumn p.1 rows) →
      ∀ p ∈ cols.foldl (analyzeStep rows) m, p.2 = analyzeColumn p.1 rows := by
  intro cols
  induction cols with
  | nil => intro m hm p hp; exact hm p hp
  | cons c t ih =>
      intro m hm p hp
      rw [List.foldl_cons] at hp
      refine ih (analyzeStep rows m c) ?_ p hp
      unfold analyzeStep
      rcases hc : c.column_name? with _ | name
      · exact hm
      · show ∀ p ∈ (if name = "" then m else dictInsertStats m name (analyzeColumn name rows)),
          p.2 = analyzeColumn p.1 rows
        by_cases hname : name = ""
        · rw [if_pos hname]
          exact hm
        · rw [if_neg hname]
          exact dictInsertStats_inv name hm

/-- Every entry of the analyzer's stats dict is the per-column loop body's
result for its key, and entries exist only for a non-empty row sample. -/
lemma analyze_mem {cols : List Column} {rows : List SampleRow} {n : String}
    {st : ColStats} (h : (n, st) ∈ analyzeSampleDataEnhanced cols rows) :
    st = analyzeColumn n rows ∧ rows ≠ [] := by
  unfold analyzeSampleDataEnhanced at h
  by_cases hr : rows = []
  · rw [if_pos hr] at h
    exact absurd h (List.not_mem_nil _)
  · rw [if_neg hr] at h
    exact ⟨analyzeStep_foldl_inv rows cols [] (by intro p hp; cases hp) (n, st) h, hr⟩

lemma firstDedup_aux_ne_nil :
    ∀ (t : List String) (acc : List String), acc ≠ [] →
      t.foldl (fun acc s => if s ∈ acc then acc else acc ++ [s]) acc ≠ [] := by
  intro t
  induction t with
  | nil => intro acc h; exact h
  | cons a t ih =>
      intro acc h
      rw [List.foldl_cons]
      refine ih _ ?_
      by_cases ha : a ∈ acc
      · rw [if_pos ha]; exact h
      · rw [if_neg ha]; simp

lemma firstDedup_ne_nil {l : List String} (h : l ≠ []) : firstDedup l ≠ [] := by
  match l with
  | [] => exact absurd rfl h
  | a :: t =>
      unfold firstDedup
      rw [List.foldl_cons]
      refine firstDedup_aux_ne_nil t _ ?_
      simp

lemma parse_json_response_ok {text : String} {v : JsonVal}
    (h : jsonParse (stripCodeBlocks text) = Option.some v) :
    parse_json_response text = Except.ok v := by
  simp only [parse_json_response]
  rw [h]

lemma parse_json_response_error {text : String}
    (h : jsonParse (stripCodeBlocks text) = Option.none) :
    parse_json_response text = Except.error "LLM returned invalid JSON" := by
  simp only [parse_json_response]
  rw [h]

lemma generate_suggestions_unfold {bg : BackendGen} {settings : Settings}
    {info : TableInfo} {rows : List SampleRow} {st : LLMClientState} {text : String}
    (hgen : LLMClient.generate bg (LLMClient.init settings) SYSTEM_PROMPT
      (build_user_prompt info rows) = Except.ok (st, text)) :
    generate_suggestions bg settings info rows =
      (match parse_json_response text with
       | Except.error e => Except.error e
       | Except.ok v =>
         match pyIterate v with
         | Except.error e => Except.error e
         | Except.ok elems => Except.ok (elems.filterMap tryRule)) := by
  simp only [generate_suggestions]
  rw [hgen]

lemma generate_dispatch (bg : BackendGen) (settings : Settings)
    (hprov : settings.llm_provider = "groq" ∨ settings.llm_provider = "openai" ∨
      settings.llm_provider = "anthropic" ∨ settings.llm_provider = "ollama") :
    ∃ b : Backend, ∀ sys usr : String,
      LLMClient.generate bg (LLMClient.init settings) sys usr =
        (match bg b sys usr with
         | Except.ok t =>
             Except.ok (LLMClientState.mk settings.llm_provider settings.llm_model
               (Option.some b), t)
         | Except.error e => Except.error e) := by
  rcases hprov with h | h | h | h
  · refine ⟨Backend.groq, fun sys usr => ?_⟩
    unfold LLMClient.generate initClient LLMClient.init
    simp [h]
  · refine ⟨Backend.openai, fun sys usr => ?_⟩
    unfold LLMClient.generate initClient LLMClient.init
    simp [h]
  · refine ⟨Backend.anthropic, fun sys usr => ?_⟩
    unfold LLMClient.generate initClient LLMClient.init
    simp [h]
  · refine ⟨Backend.ollama, fun sys usr => ?_⟩
    unfold LLMClient.generate initClient LLMClient.init
    simp [h]

lemma filterMap_tryRule_strings (kvs : List (String × JsonVal)) :
    (kvs.map (fun p => JsonVal.str p.1)).filterMap tryRule = [] := by
  rw [List.filterMap_eq_nil_iff]
  intro a ha
  obtain ⟨p, _, hp⟩ := List.mem_map.mp ha
  rw [← hp]
  rfl

/- ----------------------------------------------------------------- -/
/- Claim theorems                                                     -/
/- ----------------------------------------------------------------- -/

/-- C4: for every column whose name contains "email" or "mail" as a
case-insensitive substring, the analyzer never sets the email-issue flag
when every non-missing value matches the email pattern; when at least one
non-missing value does not match, the flag is set, the recorded invalid
count equals the exact number of non-matching non-missing values, and at
most 3 example invalid values are recorded. -/
theorem email_flag_exact (colName : String) (rows : List SampleRow)
    (hmail : strContains (pyLower colName) "email" = true ∨
      strContains (pyLower colName) "mail" = true) :
    ((∀ v ∈ nonNullValues colName rows, emailMatch (pyStr v) = true) →
      (analyzeColumn colName rows).has_email_issues = false)
    ∧ ((∃ v ∈ nonNullValues colName rows, emailMatch (pyStr v) = false) →
      (analyzeColumn colName rows).has_email_issues = true
      ∧ (analyzeColumn colName rows).email_invalid_count =
          Option.some ((nonNullValues colName rows).countP (fun v => !emailMatch (pyStr v)))
      ∧ ∃ ex, (analyzeColumn colName rows).email_invalid_examples = Option.some ex
          ∧ ex.length ≤ 3) := by
  have hec : isEmailCol colName = true := by
    unfold isEmailCol
    rcases hmail with h | h <;> simp [h]
  have hinv : invalidEmailValues colName rows
      = (nonNullValues colName rows).filter (fun v => !emailMatch (pyStr v)) := by
    simp [invalidEmailValues, hec]
  have hflag : (analyzeColumn colName rows).has_email_issues
      = (isEmailCol colName && !(invalidEmailValues colName rows).isEmpty) := rfl
  have hcount : (analyzeColumn colName rows).email_invalid_count
      = (if isEmailCol colName = true ∧ invalidEmailValues colName rows ≠ []
         then Option.some (invalidEmailValues colName rows).length
         else Option.none) := rfl
  have hex : (analyzeColumn colName rows).email_invalid_examples
      = (if isEmailCol colName = true ∧ invalidEmailValues colName rows ≠ []
         then Option.some (((invalidEmailValues colName rows).take 3).map pyStr)
         else Option.none) := rfl
  constructor
  · intro hall
    have hnil : invalidEmailValues colName rows = [] := by
      rw [hinv]
      refine List.filter_eq_nil_iff.mpr ?_
      intro v hv
      simp [hall v hv]
    rw [hflag, hnil, hec]
    rfl
  · rintro ⟨v, hv, hvm⟩
    have hne : invalidEmailValues colName rows ≠ [] := by
      rw [hinv]
      intro hnil
      have := List.filter_eq_nil_iff.mp hnil v hv
      simp [hvm] at this
    refine ⟨?_, ?_, ?_⟩
    · rw [hflag, hec]
      simp [hne]
    · rw [hcount, if_pos ⟨hec, hne⟩, hinv, List.countP_eq_length_filter]
    · refine ⟨((invalidEmailValues colName rows).take 3).map pyStr, ?_, ?_⟩
      · rw [hex, if_pos ⟨hec, hne⟩]
      · rw [List.length_map, List.length_take]
        exact min_le_left _ _

/-- Witness for C4 at a concrete mixed valid/invalid email column. -/
theorem email_flag_exact_witness :
    (analyzeColumn "email"
      [[("email", PyVal.str "a@b.com")], [("email", PyVal.str "test")]]).has_email_issues
      = true
    ∧ (analyzeColumn "email"
      [[("email", PyVal.str "a@b.com")], [("email", PyVal.str "test")]]).email_invalid_count
      = Option.some 1 := by
  have h := (email_flag_exact "email"
      [[("email", PyVal.str "a@b.com")], [("email", PyVal.str "test")]]
      (Or.inl (by decide))).2 ⟨PyVal.str "test", by decide, by decide⟩
  refine ⟨h.1, ?_⟩
  rw [h.2.1]
  decide

/-- C7: every entry of the analyzer's stats map satisfies
`null_pct = null_count / row_count * 100`, with `null_count` the number of
missing (null or empty-string) values; a column with 0 of N rows populated
has null_pct exactly 100 (N > 0 whenever the map has entries), and with
row_count 0 the per-column formula defines null_pct as 0 (and the map
itself is empty). -/
theorem null_pct_formula (cols : List Column) (rows : List SampleRow)
    (n : String) (st : ColStats) (h : (n, st) ∈ analyzeSampleDataEnhanced cols rows) :
    st.null_pct = (st.null_count : ℚ) / (rows.length : ℚ) * 100
    ∧ st.null_count = ((columnValues n rows).filter (fun v => isMissing v)).length
    ∧ ((∀ r ∈ rows, isMissing (pyGet r n) = true) → st.null_pct = 100)
    ∧ (analyzeColumn n []).null_pct = 0
    ∧ analyzeSampleDataEnhanced cols [] = [] := by
  obtain ⟨hst, hrows⟩ := analyze_mem h
  subst hst
  have hlen0 : rows.length ≠ 0 := by
    intro h0
    exact hrows (List.length_eq_zero.mp h0)
  have hnc : (analyzeColumn n rows).null_count
      = (columnValues n rows).length
        - ((columnValues n rows).filter (fun v => !isMissing v)).length := rfl
  have hpct : (analyzeColumn n rows).null_pct
      = (if rows.length = 0 then 0
         else ((analyzeColumn n rows).null_count : ℚ) / (rows.length : ℚ) * 100) := rfl
  refine ⟨?_, ?_, ?_, rfl, by simp [analyzeSampleDataEnhanced]⟩
  · rw [hpct, if_neg hlen0]
  · rw [hnc, length_sub_filter_not]
  · intro hall
    have hnnil : (columnValues n rows).filter (fun v => !isMissing v) = [] := by
      refine List.filter_eq_nil_iff.mpr ?_
      intro v hv
      obtain ⟨r, hr, hrv⟩ := List.mem_map.mp hv
      simp [← hrv, hall r hr]
    have hcnt : (analyzeColumn n rows).null_count = rows.length := by
      rw [hnc, hnnil]
      simp [columnValues]
    rw [hpct, if_neg hlen0, hcnt]
    rw [div_mul_eq_mul_div, mul_comm, mul_div_assoc,
      div_self (by exact_mod_cast hlen0), mul_one]

/-- Witness for C7 on a fully-null 5-row sample. -/
theorem null_pct_formula_witness :
    (analyzeColumn "x" [[("x", PyVal.none)], [("x", PyVal.none)], [("x", PyVal.none)],
      [("x", PyVal.none)], [("x", PyVal.none)]]).null_pct = 100 := by
  have hmap : analyzeSampleDataEnhanced [Column.mk (Option.some "x") (Option.some "text")]
      [[("x", PyVal.none)], [("x", PyVal.none)], [("x", PyVal.none)],
        [("x", PyVal.none)], [("x", PyVal.none)]]
      = [("x", analyzeColumn "x" [[("x", PyVal.none)], [("x", PyVal.none)],
          [("x", PyVal.none)], [("x", PyVal.none)], [("x", PyVal.none)]])] := rfl
  have h := null_pct_formula [Column.mk (Option.some "x") (Option.some "text")]
    [[("x", PyVal.none)], [("x", PyVal.none)], [("x", PyVal.none)],
      [("x", PyVal.none)], [("x", PyVal.none)]] "x"
    (analyzeColumn "x" [[("x", PyVal.none)], [("x", PyVal.none)], [("x", PyVal.none)],
      [("x", PyVal.none)], [("x", PyVal.none)]])
    (by rw [hmap]; exact List.mem_singleton.mpr rfl)
  exact h.2.2.1 (by decide)

/-- C8: for every column in the stats map, the compact distinct-value
enumeration is populated iff distinct_count is between 1 and 10. -/
theorem sample_values_iff (cols : List Column) (rows : List SampleRow)
    (n : String) (st : ColStats) (h : (n, st) ∈ analyzeSampleDataEnhanced cols rows) :
    st.sample_values.isSome = true ↔
      (1 ≤ st.distinct_count ∧ st.distinct_count ≤ 10) := by
  obtain ⟨hst, -⟩ := analyze_mem h
  subst hst
  have hsv : (analyzeColumn n rows).sample_values
      = (if (if nonNullValues n rows = [] then 0
             else (firstDedup ((nonNullValues n rows).map pyStr)).length) ≤ 10
            ∧ nonNullValues n rows ≠ []
         then Option.some
           ((pySorted (firstDedup ((nonNullValues n rows).map pyStr))).take 10)
         else Option.none) := rfl
  have hdc : (analyzeColumn n rows).distinct_count
      = (if nonNullValues n rows = [] then 0
         else (firstDedup ((nonNullValues n rows).map pyStr)).length) := rfl
  by_cases hnn : nonNullValues n rows = []
  · rw [hsv, hdc]
    simp [hnn]
  · have hlen : 1 ≤ (firstDedup ((nonNullValues n rows).map pyStr)).length := by
      have hne : (nonNullValues n rows).map pyStr ≠ [] := by simpa using hnn
      have := firstDedup_ne_nil hne
      cases hfd : firstDedup ((nonNullValues n rows).map pyStr) with
      | nil => exact absurd hfd this
      | cons a t => simp
    rw [hsv, hdc]
    simp only [if_neg hnn]
    by_cases h10 : (firstDedup ((nonNullValues n rows).map pyStr)).length ≤ 10
    · rw [if_pos ⟨h10, hnn⟩]
      simp [h10, hlen]
    · rw [if_neg (fun hc => h10 hc.1)]
      simp [h10]

/-- Witness for C8: a 5-row column with 2 distinct values has the
enumeration populated, matching 1 ≤ 2 ≤ 10. -/
theorem sample_values_iff_witness :
    ((analyzeColumn "s" [[("s", PyVal.str "a")], [("s", PyVal.str "b")],
      [("s", PyVal.str "a")], [("s", PyVal.str "b")], [("s", PyVal.str "a")]]).sample_values).isSome
      = true := by
  have hmap : analyzeSampleDataEnhanced [Column.mk (Option.some "s") (Option.some "text")]
      [[("s", PyVal.str "a")], [("s", PyVal.str "b")], [("s", PyVal.str "a")],
        [("s", PyVal.str "b")], [("s", PyVal.str "a")]]
      = [("s", analyzeColumn "s" [[("s", PyVal.str "a")], [("s", PyVal.str "b")],
          [("s", PyVal.str "a")], [("s", PyVal.str "b")], [("s", PyVal.str "a")]])] := rfl
  have h := sample_values_iff [Column.mk (Option.some "s") (Option.some "text")]
    [[("s", PyVal.str "a")], [("s", PyVal.str "b")], [("s", PyVal.str "a")],
      [("s", PyVal.str "b")], [("s", PyVal.str "a")]] "s"
    (analyzeColumn "s" [[("s", PyVal.str "a")], [("s", PyVal.str "b")],
      [("s", PyVal.str "a")], [("s", PyVal.str "b")], [("s", PyVal.str "a")]])
    (by rw [hmap]; exact List.mem_singleton.mpr rfl)
  exact h.mpr (by decide)

/-- C5: for every column whose name contains "id" or "key" as a
case-insensitive substring, the analyzer sets the duplicate flag iff some
string-normalized non-missing value occurs more than once, and then
duplicate_count equals the sum of (occurrence_count - 1) over all
duplicated values. -/
theorem duplicate_flag_exact (colName : String) (rows : List SampleRow)
    (hid : strContains (pyLower colName) "id" = true ∨
      strContains (pyLower colName) "key" = true) :
    ((analyzeColumn colName rows).has_duplicates = true ↔
      ∃ s ∈ (nonNullValues colName rows).map pyStr,
        1 < ((nonNullValues colName rows).map pyStr).count s)
    ∧ ((analyzeColumn colName rows).has_duplicates = true →
      (analyzeColumn colName rows).duplicate_count =
        Option.some (∑ s in (((nonNullValues colName rows).map pyStr).toFinset.filter
            (fun s => 1 < ((nonNullValues colName rows).map pyStr).count s)),
          (((nonNullValues colName rows).map pyStr).count s - 1))) := by
  set strs := (nonNullValues colName rows).map pyStr with hstrs
  have hic : isIdCol colName = true := by
    unfold isIdCol
    rcases hid with h | h <;> simp [h]
  have hdups : duplicateEntries colName rows
      = (valueCounts strs).filter (fun p => 1 < p.2) := by
    simp [duplicateEntries, hic, hstrs]
  obtain ⟨hnd, hmem⟩ := valueCounts_spec strs
  have hflag : (analyzeColumn colName rows).has_duplicates
      = (isIdCol colName && !(duplicateEntries colName rows).isEmpty) := rfl
  have hcnt : (analyzeColumn colName rows).duplicate_count
      = (if isIdCol colName = true ∧ duplicateEntries colName rows ≠ []
         then Option.some (((duplicateEntries colName rows).map (fun p => p.2)).sum
           - (duplicateEntries colName rows).length)
         else Option.none) := rfl
  have hdmem : ∀ p ∈ duplicateEntries colName rows,
      p ∈ valueCounts strs ∧ 1 < p.2 := by
    intro p hp
    rw [hdups] at hp
    exact ⟨(List.mem_filter.mp hp).1, by simpa using (List.mem_filter.mp hp).2⟩
  have hne_of_flag : (analyzeColumn colName rows).has_duplicates = true →
      duplicateEntries colName rows ≠ [] := by
    intro hdup hnil
    rw [hflag, hic, hnil] at hdup
    simp at hdup
  constructor
  · constructor
    · intro hdup
      have hne := hne_of_flag hdup
      cases hd : duplicateEntries colName rows with
      | nil => exact absurd hd hne
      | cons p t =>
          have hp : p ∈ duplicateEntries colName rows := by rw [hd]; simp
          obtain ⟨hpv, hp2⟩ := hdmem p hp
          have hch := (hmem p).mp hpv
          exact ⟨p.1, hch.1, by rw [← hch.2]; exact hp2⟩
    · rintro ⟨s, hs, hcount⟩
      have hvc : (s, strs.count s) ∈ valueCounts strs := (hmem _).mpr ⟨hs, rfl⟩
      have hin : (s, strs.count s) ∈ (valueCounts strs).filter (fun p => 1 < p.2) :=
        List.mem_filter.mpr ⟨hvc, by simpa using hcount⟩
      have hne : duplicateEntries colName rows ≠ [] := by
        rw [hdups]
        intro h0
        rw [h0] at hin
        cases hin
      rw [hflag, hic]
      cases hd : duplicateEntries colName rows with
      | nil => exact absurd hd hne
      | cons p t => rfl
  · intro hdup
    have hne := hne_of_flag hdup
    rw [hcnt, if_pos ⟨hic, hne⟩]
    have h1le : ∀ p ∈ duplicateEntries colName rows, 1 ≤ p.2 :=
      fun p hp => le_of_lt (hdmem p hp).2
    rw [sum_sub_length_snd _ h1le]
    have hmapmap : (duplicateEntries colName rows).map (fun p => p.2 - 1)
        = ((duplicateEntries colName rows).map Prod.fst).map
            (fun s => strs.count s - 1) := by
      rw [List.map_map]
      apply List.map_congr_left
      intro p hp
      have := ((hmem p).mp (hdmem p hp).1).2
      simp only [Function.comp]
      rw [this]
    have hnodup : ((duplicateEntries colName rows).map Prod.fst).Nodup := by
      rw [hdups]
      exact hnd.sublist (List.Sublist.map _ (List.filter_sublist _))
    have hfs : ((duplicateEntries colName rows).map Prod.fst).toFinset
        = strs.toFinset.filter (fun s => 1 < strs.count s) := by
      ext s
      simp only [List.mem_toFinset, Finset.mem_filter, List.mem_map]
      constructor
      · rintro ⟨p, hp, rfl⟩
        obtain ⟨hpv, hp2⟩ := hdmem p hp
        have hch := (hmem p).mp hpv
        exact ⟨hch.1, by rw [← hch.2]; exact hp2⟩
      · rintro ⟨hsmem, hscount⟩
        refine ⟨(s, strs.count s), ?_, rfl⟩
        rw [hdups]
        exact List.mem_filter.mpr
          ⟨(hmem _).mpr ⟨hsmem, rfl⟩, by simpa using hscount⟩
    rw [hmapmap, ← List.sum_toFinset _ hnodup, hfs]

/-- Witness for C5: "customer_id" with values [1,1,2,3] flags one redundant
occurrence; values [1,2,3] yield no duplicate flag. -/
theorem duplicate_flag_exact_witness :
    (analyzeColumn "customer_id" [[("customer_id", PyVal.int 1)],
      [("customer_id", PyVal.int 1)], [("customer_id", PyVal.int 2)],
      [("customer_id", PyVal.int 3)]]).has_duplicates = true
    ∧ (analyzeColumn "customer_id" [[("customer_id", PyVal.int 1)],
      [("customer_id", PyVal.int 1)], [("customer_id", PyVal.int 2)],
      [("customer_id", PyVal.int 3)]]).duplicate_count = Option.some 1
    ∧ (analyzeColumn "customer_id" [[("customer_id", PyVal.int 1)],
      [("customer_id", PyVal.int 2)],
      [("customer_id", PyVal.int 3)]]).has_duplicates = false := by
  have h := duplicate_flag_exact "customer_id" [[("customer_id", PyVal.int 1)],
    [("customer_id", PyVal.int 1)], [("customer_id", PyVal.int 2)],
    [("customer_id", PyVal.int 3)]] (Or.inl (by decide))
  have h3 := duplicate_flag_exact "customer_id" [[("customer_id", PyVal.int 1)],
    [("customer_id", PyVal.int 2)], [("customer_id", PyVal.int 3)]]
    (Or.inl (by decide))
  have hflag := h.1.mpr ⟨"1", by decide, by decide⟩
  refine ⟨hflag, ?_, ?_⟩
  · rw [h.2 hflag]
    decide
  · cases hf : (analyzeColumn "customer_id" [[("customer_id", PyVal.int 1)],
      [("customer_id", PyVal.int 2)], [("customer_id", PyVal.int 3)]]).has_duplicates
    · rfl
    · exact absurd (h3.1.mp hf) (by decide)

/-- C6 counterexample: constructing the client with an unsupported
provider returns normally (`__init__` is three attribute assignments and
cannot raise), and the descriptive `ValueError` surfaces only at the
`generate` call — dispatch time — while the supplied backend is never
consulted.  This refutes "this failure occurs at construction time, not
at dispatch time". -/
theorem provider_error_counterexample :
    LLMClient.init (Settings.mk "bogus" "m")
      = LLMClientState.mk "bogus" "m" Option.none
    ∧ LLMClient.generate (fun _ _ _ => Except.ok "backend reached")
        (LLMClient.init (Settings.mk "bogus" "m")) "sys" "user"
      = Except.error "Unsupported provider: bogus" := ⟨rfl, rfl⟩

/-- C6 amended: an unknown/unsupported provider name fails with the
descriptive configuration error at the first `generate` call (when the
lazy backend handle is first initialized), before any backend call — the
result is this error for every backend function — while construction
itself stores the provider without validating it. -/
theorem provider_error_amended (p m sys usr : String) (bg : BackendGen)
    (hp : p ≠ "groq" ∧ p ≠ "openai" ∧ p ≠ "anthropic" ∧ p ≠ "ollama") :
    LLMClient.init (Settings.mk p m) = LLMClientState.mk p m Option.none
    ∧ LLMClient.generate bg (LLMClient.init (Settings.mk p m)) sys usr
      = Except.error ("Unsupported provider: " ++ p) := by
  refine ⟨rfl, ?_⟩
  unfold LLMClient.generate initClient LLMClient.init
  simp [hp.1, hp.2.1, hp.2.2.1, hp.2.2.2]

/-- Witness for the amended C6 at the concrete provider "bogus". -/
theorem provider_error_amended_witness :
    LLMClient.generate (fun _ _ _ => Except.ok "ok")
      (LLMClient.init (Settings.mk "bogus" "m")) "s" "u"
      = Except.error ("Unsupported provider: " ++ "bogus") :=
  (provider_error_amended "bogus" "m" "s" "u" (fun _ _ _ => Except.ok "ok")
    ⟨by decide, by decide, by decide, by decide⟩).2

/-- C1 counterexample: with 0 (< 5) sample rows the Prompt Builder does
take the insufficient-data path, but nothing in the code enforces an
empty result: a generation backend that ignores the instruction and
returns a valid finding array makes the pipeline return a non-empty
finding list. -/
theorem insufficient_rows_counterexample :
    generate_suggestions
      (fun _ _ _ => Except.ok "[\x7b\"column\": \"a\", \"issues\": [\"x\"], \"recommendation\": \"r\", \"severity\": \"high\"\x7d]")
      (Settings.mk "groq" "m")
      (TableInfo.mk Option.none Option.none Option.none []) []
      = Except.ok [DataQualityRule.mk "a" ["x"] "r" Severity.high]
    ∧ [DataQualityRule.mk "a" ["x"] "r" Severity.high] ≠ ([] : List DataQualityRule) := by
  exact ⟨rfl, by decide⟩

/-- C1 amended: for fewer than 5 rows the Prompt Builder takes the
insufficient-data path — the user prompt depends only on the row count,
not the sample's content — and for every generation backend that follows
the mandated-empty instruction (returns text parsing to the empty JSON
array) the pipeline yields an empty finding list. -/
theorem insufficient_rows_amended (bg : BackendGen) (settings : Settings)
    (info : TableInfo) (rows : List SampleRow)
    (h5 : rows.length < 5)
    (hprov : settings.llm_provider = "groq" ∨ settings.llm_provider = "openai" ∨
      settings.llm_provider = "anthropic" ∨ settings.llm_provider = "ollama")
    (hcomply : ∀ b : Backend, ∃ text : String,
      bg b SYSTEM_PROMPT (build_user_prompt info rows) = Except.ok text
      ∧ jsonParse (stripCodeBlocks text) = Option.some (JsonVal.arr [])) :
    (∀ rows' : List SampleRow, rows'.length = rows.length →
      build_user_prompt info rows' = build_user_prompt info rows)
    ∧ generate_suggestions bg settings info rows = Except.ok [] := by
  constructor
  · intro rows' hlen
    have h5' : rows'.length < 5 := by omega
    simp only [build_user_prompt]
    rw [if_pos h5', if_pos h5, hlen]
  · obtain ⟨b, hb⟩ := generate_dispatch bg settings hprov
    obtain ⟨text, htext, hparse⟩ := hcomply b
    have hgen : LLMClient.generate bg (LLMClient.init settings) SYSTEM_PROMPT
        (build_user_prompt info rows)
        = Except.ok (LLMClientState.mk settings.llm_provider settings.llm_model
            (Option.some b), text) := by
      rw [hb SYSTEM_PROMPT (build_user_prompt info rows), htext]
    rw [generate_suggestions_unfold hgen, parse_json_response_ok hparse]
    rfl

/-- Witness for the amended C1: empty sample, compliant backend. -/
theorem insufficient_rows_amended_witness :
    generate_suggestions (fun _ _ _ => Except.ok "[]") (Settings.mk "groq" "m")
      (TableInfo.mk Option.none Option.none Option.none []) [] = Except.ok [] :=
  (insufficient_rows_amended (fun _ _ _ => Except.ok "[]") (Settings.mk "groq" "m")
    (TableInfo.mk Option.none Option.none Option.none []) [] (by decide)
    (Or.inl rfl) (fun b => ⟨"[]", rfl, rfl⟩)).2

/-- C2 counterexample: the text `\x7b\x7d` is not parseable as a JSON
array (it parses as an object), yet `parse_json_response` raises no
malformed-generation error — refuting the "exactly when" biconditional as
stated. -/
theorem parse_error_iff_counterexample :
    parse_json_response "\x7b\x7d" = Except.ok (JsonVal.obj [])
    ∧ JsonVal.isArray (JsonVal.obj []) = false := ⟨rfl, rfl⟩

/-- C2 amended: `parse_json_response` raises the malformed-generation
`ValueError` exactly when the block-stripped response text is not
parseable as JSON at all (any JSON value, not only arrays); in particular
every non-JSON text raises this error, and `generate_suggestions`
propagates it rather than returning an empty finding list. -/
theorem parse_error_iff_amended (resp : String) :
    ((∃ e, parse_json_response resp = Except.error e) ↔
      jsonParse (stripCodeBlocks resp) = Option.none)
    ∧ (jsonParse (stripCodeBlocks resp) = Option.none →
      ∀ (bg : BackendGen) (settings : Settings) (info : TableInfo)
        (rows : List SampleRow) (st : LLMClientState),
        LLMClient.generate bg (LLMClient.init settings) SYSTEM_PROMPT
          (build_user_prompt info rows) = Except.ok (st, resp) →
        generate_suggestions bg settings info rows
          = Except.error "LLM returned invalid JSON") := by
  constructor
  · constructor
    · rintro ⟨e, he⟩
      cases hj : jsonParse (stripCodeBlocks resp) with
      | none => rfl
      | some v =>
          rw [parse_json_response_ok hj] at he
          cases he
    · intro hnone
      exact ⟨"LLM returned invalid JSON", parse_json_response_error hnone⟩
  · intro hnone bg settings info rows st hgen
    rw [generate_suggestions_unfold hgen, parse_json_response_error hnone]

/-- Witness for the amended C2: the non-JSON text "nonsense" raises and
the pipeline propagates the error. -/
theorem parse_error_iff_witness :
    (∃ e, parse_json_response "nonsense" = Except.error e)
    ∧ generate_suggestions (fun _ _ _ => Except.ok "nonsense")
        (Settings.mk "groq" "m") (TableInfo.mk Option.none Option.none Option.none []) []
      = Except.error "LLM returned invalid JSON" := by
  have h := parse_error_iff_amended "nonsense"
  exact ⟨h.1.mpr rfl,
    h.2 rfl (fun _ _ _ => Except.ok "nonsense") (Settings.mk "groq" "m")
      (TableInfo.mk Option.none Option.none Option.none []) []
      (LLMClientState.mk "groq" "m" (Option.some Backend.groq)) rfl⟩

/-- C3: whenever the generated text parses to a JSON array,
`generate_suggestions` returns, without raising, exactly the findings of
the elements that construct a `DataQualityRule`, in the array's original
order — elements failing construction are skipped and do not abort the
rest (`List.filterMap` semantics). -/
theorem elements_validated_independently (bg : BackendGen) (settings : Settings)
    (info : TableInfo) (rows : List SampleRow) (st : LLMClientState)
    (text : String) (elems : List JsonVal)
    (hgen : LLMClient.generate bg (LLMClient.init settings) SYSTEM_PROMPT
      (build_user_prompt info rows) = Except.ok (st, text))
    (hparse : jsonParse (stripCodeBlocks text) = Option.some (JsonVal.arr elems)) :
    generate_suggestions bg settings info rows
      = Except.ok (elems.filterMap tryRule) := by
  rw [generate_suggestions_unfold hgen, parse_json_response_ok hparse]
  rfl

/-- Witness for C3: a single-element array whose entry has severity
"bogus" yields an empty finding list without raising. -/
theorem elements_validated_independently_witness :
    generate_suggestions
      (fun _ _ _ => Except.ok "[\x7b\"column\": \"age\", \"issues\": [\"x\"], \"recommendation\": \"y\", \"severity\": \"bogus\"\x7d]")
      (Settings.mk "groq" "m") (TableInfo.mk Option.none Option.none Option.none []) []
      = Except.ok [] := by
  have h := elements_validated_independently
    (fun _ _ _ => Except.ok "[\x7b\"column\": \"age\", \"issues\": [\"x\"], \"recommendation\": \"y\", \"severity\": \"bogus\"\x7d]")
    (Settings.mk "groq" "m") (TableInfo.mk Option.none Option.none Option.none []) []
    (LLMClientState.mk "groq" "m" (Option.some Backend.groq))
    "[\x7b\"column\": \"age\", \"issues\": [\"x\"], \"recommendation\": \"y\", \"severity\": \"bogus\"\x7d]"
    [JsonVal.obj [("column", JsonVal.str "age"), ("issues", JsonVal.arr [JsonVal.str "x"]),
      ("recommendation", JsonVal.str "y"), ("severity", JsonVal.str "bogus")]]
    rfl rfl
  rw [h]
  rfl

/-- C10: when the block-stripped generated text parses to a JSON object,
no malformed-generation error is raised — the parsed object is returned
as-is by `parse_json_response`, iterating it yields its keys, each key
fails Finding construction and is skipped, and the call returns an empty
finding list. -/
theorem object_response_yields_empty (bg : BackendGen) (settings : Settings)
    (info : TableInfo) (rows : List SampleRow) (st : LLMClientState)
    (text : String) (kvs : List (String × JsonVal))
    (hgen : LLMClient.generate bg (LLMClient.init settings) SYSTEM_PROMPT
      (build_user_prompt info rows) = Except.ok (st, text))
    (hparse : jsonParse (stripCodeBlocks text) = Option.some (JsonVal.obj kvs)) :
    parse_json_response text = Except.ok (JsonVal.obj kvs)
    ∧ generate_suggestions bg settings info rows = Except.ok [] := by
  refine ⟨parse_json_response_ok hparse, ?_⟩
  rw [generate_suggestions_unfold hgen, parse_json_response_ok hparse]
  show Except.ok ((kvs.map (fun p => JsonVal.str p.1)).filterMap tryRule)
    = Except.ok ([] : List DataQualityRule)
  rw [filterMap_tryRule_strings]

/-- Witness for C10 on a two-key object response. -/
theorem object_response_yields_empty_witness :
    generate_suggestions (fun _ _ _ => Except.ok "\x7b\"a\": \"x\", \"b\": \"y\"\x7d")
      (Settings.mk "groq" "m") (TableInfo.mk Option.none Option.none Option.none []) []
      = Except.ok [] :=
  (object_response_yields_empty (fun _ _ _ => Except.ok "\x7b\"a\": \"x\", \"b\": \"y\"\x7d")
    (Settings.mk "groq" "m") (TableInfo.mk Option.none Option.none Option.none []) []
    (LLMClientState.mk "groq" "m" (Option.some Backend.groq))
    "\x7b\"a\": \"x\", \"b\": \"y\"\x7d"
    [("a", JsonVal.str "x"), ("b", JsonVal.str "y")] rfl rfl).2

/-- C9: the Sample Analyzer and the pipeline with a fixed deterministic
backend stub are deterministic — equal inputs give equal stats maps and
equal `SuggestionResponse` values.  In this pure embedding determinism is
intrinsic; its faithfulness rests on the source reading no mutable or
global state on these code paths, which the translation preserves. -/
theorem pipeline_deterministic (bg : BackendGen)
    (cols₁ cols₂ : List Column) (rows₁ rows₂ : List SampleRow)
    (settings₁ settings₂ : Settings) (sk₁ sk₂ sn₁ sn₂ tn₁ tn₂ : String)
    (hc : cols₁ = cols₂) (hr : rows₁ = rows₂) (hs : settings₁ = settings₂)
    (hsk : sk₁ = sk₂) (hsn : sn₁ = sn₂) (htn : tn₁ = tn₂) :
    analyzeSampleDataEnhanced cols₁ rows₁ = analyzeSampleDataEnhanced cols₂ rows₂
    ∧ generate_suggestions_response bg settings₁ sk₁ sn₁ tn₁ cols₁ rows₁
      = generate_suggestions_response bg settings₂ sk₂ sn₂ tn₂ cols₂ rows₂ := by
  subst hc
  subst hr
  subst hs
  subst hsk
  subst hsn
  subst htn
  exact ⟨rfl, rfl⟩

/-- Witness for C9: two identical concrete invocations coincide. -/
theorem pipeline_deterministic_witness :
    generate_suggestions_response (fun _ _ _ => Except.ok "[]")
      (Settings.mk "groq" "m") "src" "sch" "tbl" [] []
    = generate_suggestions_response (fun _ _ _ => Except.ok "[]")
      (Settings.mk "groq" "m") "src" "sch" "tbl" [] [] :=
  (pipeline_deterministic (fun _ _ _ => Except.ok "[]") [] [] [] []
    (Settings.mk "groq" "m") (Settings.mk "groq" "m")
    "src" "src" "sch" "sch" "tbl" "tbl" rfl rfl rfl rfl rfl rfl).2

end LLMSugg
